import Mathlib

/-!
Verification of the MakeMeHired CV-generation backend.

The embedding follows `src/schemas.py` (the pydantic data model) and
`src/main.py` (the rendering helpers `skills_to_keywords` and `bullet_list`,
the template renderer `render_cv_html`, and the submission handler
`generate_cv`).  Python strings are embedded as Lean `String`
(a list of characters); f-string templates become explicit concatenations of
their literal chunks and substituted fields, in the exact source order.
-/

/-- One prior job entry (`CVExperience` in src/schemas.py): `company`, `role`,
`duration`, and a list of bullet `achievements` (defaults to `[]`). -/
structure CVExperience where
  company : String
  role : String
  duration : String
  achievements : List String
deriving DecidableEq

/-- One education entry (`CVEducation` in src/schemas.py): `degree`,
`institution`, `year`. -/
structure CVEducation where
  degree : String
  institution : String
  year : String
deriving DecidableEq

/-- The central entity (`CVProfile` in src/schemas.py).  `Optional[...]`
pydantic fields are `Option`s; fields with `default_factory=list` still have
type `Optional[List[str]]` in the source, so a submitted `null` is a legal
value and they are embedded as `Option (List String)`. -/
structure CVProfile where
  full_name : String
  email : String
  phone : String
  linkedin : Option String
  summary : Option String
  job_title_target : String
  skills : List String
  experience : List CVExperience
  education : List CVEducation
  certifications : Option (List String)
  projects : Option (List String)
  languages : Option (List String)
  interests : Option (List String)
  template : Option String
deriving DecidableEq

/-- Characters Python's `str.strip()` removes at the ends of a string
(the ASCII whitespace characters; the source never feeds it other
whitespace-class characters). -/
def isPySpace (c : Char) : Bool :=
  c = ' ' || c = '\t' || c = '\n' || c = '\r' || c = '\x0b' || c = '\x0c'

/-- Python `s.strip()`: drop leading and trailing whitespace characters. -/
def pyStrip (s : String) : String :=
  String.mk (((s.data.dropWhile isPySpace).reverse.dropWhile isPySpace).reverse)

/-- Python `s.replace(' ', '')` as used on line 191 of src/main.py: remove
every occurrence of the single character `' '` (only the ASCII space, no other
whitespace). -/
def removeSpaces (s : String) : String :=
  String.mk (s.data.filter (fun c => c ≠ ' '))

/-- Concatenation of a list of strings (Python `"".join(...)`, and the `+=`
accumulation loops of `render_cv_html`). -/
def strConcat : List String → String
  | [] => ""
  | s :: rest => s ++ strConcat rest

/-- Embeds `skills_to_keywords` (src/main.py line 69): keep the entries that
are truthy (non-empty; `isinstance(s, str)` always holds in the typed model)
and strip each kept entry. -/
def skills_to_keywords (skills : List String) : List String :=
  (skills.filter (fun s => s ≠ "")).map pyStrip

/-- Embeds the nested helper `bullet_list` (src/main.py lines 75-79): `""` for
a falsy argument (`None` or the empty list), otherwise `<ul>...</ul>` around
one `<li>` per truthy (non-empty) item.  Note the emptiness test is on the raw
list, before empty items are dropped. -/
def bullet_list (items : Option (List String)) : String :=
  match items with
  | none => ""
  | some l =>
    if l = [] then ""
    else "<ul>" ++ strConcat (l.filter (fun p => p ≠ "") |>.map (fun p => "<li>" ++ p ++ "</li>")) ++ "</ul>"

/-- One experience item of the `exp_html` loop (src/main.py lines 83-90),
pieces in source order. -/
def expItem (e : CVExperience) : String :=
  strConcat
    ["\n        <div class='exp-item'>\n            <div class='exp-header'><strong>",
     e.role,
     "</strong> | ",
     e.company,
     " — <span class='muted'>",
     e.duration,
     "</span></div>\n            ",
     bullet_list (some e.achievements),
     "\n        </div>\n        "]

/-- One education item of the `edu_html` loop (src/main.py lines 94-95). -/
def eduItem (ed : CVEducation) : String :=
  strConcat
    ["<div class='edu-item'><strong>",
     ed.degree,
     "</strong>, ",
     ed.institution,
     " — <span class='muted'>",
     ed.year,
     "</span></div>"]

/-- The `exp_html` accumulator of src/main.py line 82-90. -/
def expHtml (experience : List CVExperience) : String :=
  strConcat (experience.map expItem)

/-- The `edu_html` accumulator of src/main.py lines 93-95. -/
def eduHtml (education : List CVEducation) : String :=
  strConcat (education.map eduItem)

/-- The `skills_html` expression of src/main.py line 102: one
`<span class='tag'>` per keyword. -/
def skillsHtml (skills : List String) : String :=
  strConcat ((skills_to_keywords skills).map
    (fun s => "<span class='tag'>" ++ s ++ "</span>"))

/-- The four optional sections of src/main.py lines 153-156: each is an
f-string `<div class='section'><h2>{title}</h2>{html}</div>` kept only when
the bullet-list html for the collection is truthy (non-empty). -/
def optionalSection (title : String) (items : Option (List String)) : String :=
  if bullet_list items = "" then ""
  else "<div class='section'><h2>" ++ title ++ "</h2>" ++ bullet_list items ++ "</div>"

/-- The f-string fragment `{' • ' + data.linkedin if data.linkedin else ''}`
of src/main.py line 129. -/
def linkedinHtml (linkedin : Option String) : String :=
  match linkedin with
  | none => ""
  | some l => if l = "" then "" else " • " ++ l

/-- The fallback sentence synthesized on src/main.py line 135. -/
def fallbackSummary (job_title_target : String) : String :=
  "Results-driven " ++ job_title_target ++ " with experience across key areas and strong focus on measurable impact."

/-- The summary paragraph body: Python `data.summary or fallback` (line 135),
where `or` yields the fallback when `summary` is `None` or `""`. -/
def summaryHtml (P : CVProfile) : String :=
  match P.summary with
  | none => fallbackSummary P.job_title_target
  | some s => if s = "" then fallbackSummary P.job_title_target else s

/-- Literal head of the template (src/main.py lines 104-109), up to the first
substitution `{data.full_name}` in the `<title>`. -/
def tplHead : String :=
  "\n<!DOCTYPE html>\n<html>\n<head>\n<meta charset='utf-8'>\n<title>"

/-- Literal chunk from after `{data.job_title_target}` in the `<title>` (line
109) to the `{data.full_name}` of the name div (line 127); contains the CSS of
lines 110-123. -/
def tplStyle : String :=
  " CV</title>\n<style>\n  @page \x7b size: A4; margin: 20mm; \x7d\n  body \x7b font-family: Arial, Helvetica, sans-serif; color: #111; font-size: 11pt; \x7d\n  .header \x7b border-bottom: 2px solid #111; padding-bottom: 6px; margin-bottom: 10px; \x7d\n  .name \x7b font-size: 20pt; font-weight: bold; \x7d\n  .contact \x7b font-size: 10pt; color: #333; \x7d\n  h2 \x7b font-size: 12.5pt; margin: 14px 0 6px; padding: 0; \x7d\n  .section \x7b margin-bottom: 8px; \x7d\n  .muted \x7b color: #555; \x7d\n  ul \x7b margin: 4px 0 0 18px; \x7d\n  li \x7b line-height: 1.35; margin: 2px 0; \x7d\n  .tag \x7b display: inline-block; border: 1px solid #999; padding: 2px 6px; border-radius: 3px; margin: 2px 6px 0 0; font-size: 9pt; \x7d\n  .exp-item, .edu-item \x7b margin-bottom: 6px; \x7d\n</style>\n</head>\n<body>\n  <div class='header'>\n    <div class='name'>"

/-- Literal chunk between `{data.full_name}` (line 127) and `{data.phone}`
(line 129). -/
def tplContact : String :=
  "</div>\n    <div class='contact'>\n      "

/-- Literal chunk closing the header (lines 129-133) up to the Professional
Summary heading. -/
def tplAfterContact : String :=
  "\n    </div>\n  </div>\n\n  <div class='section'>\n    "

/-- Literal chunk between the summary paragraph and the Core Skills
heading (lines 135-139). -/
def tplAfterSummary : String :=
  "</p>\n  </div>\n\n  <div class='section'>\n    "

/-- Literal chunk between `{skills_html}` and the Professional Experience
heading (lines 140-144). -/
def tplAfterSkills : String :=
  "</div>\n  </div>\n\n  <div class='section'>\n    "

/-- Literal chunk between `{exp_html}` and the Education heading (lines
145-149). -/
def tplAfterExp : String :=
  "\n  </div>\n\n  <div class='section'>\n    "

/-- Literal chunk between `{edu_html}` and the first optional section (lines
150-153). -/
def tplAfterEdu : String :=
  "\n  </div>\n\n  "

/-- Literal tail of the template (lines 156-160). -/
def tplFooter : String :=
  "\n\n</body>\n</html>\n"

/-- The pieces of the template of src/main.py lines 104-160, in source order:
literal chunks alternating with the substituted expressions. -/
def renderPieces (P : CVProfile) : List String :=
  [tplHead,
   P.full_name,
   " — ",
   P.job_title_target,
   tplStyle,
   P.full_name,
   tplContact,
   P.phone,
   " • ",
   P.email,
   linkedinHtml P.linkedin,
   tplAfterContact,
   "<h2>Professional Summary</h2>",
   "\n    <p>",
   summaryHtml P,
   tplAfterSummary,
   "<h2>Core Skills</h2>",
   "\n    <div>",
   skillsHtml P.skills,
   tplAfterSkills,
   "<h2>Professional Experience</h2>",
   "\n    ",
   expHtml P.experience,
   tplAfterExp,
   "<h2>Education</h2>",
   "\n    ",
   eduHtml P.education,
   tplAfterEdu,
   optionalSection "Certifications" P.certifications,
   "\n  ",
   optionalSection "Projects / Achievements" P.projects,
   "\n  ",
   optionalSection "Languages" P.languages,
   "\n  ",
   optionalSection "Interests" P.interests,
   tplFooter]

/-- Embeds `render_cv_html` (src/main.py lines 73-161). -/
def render_cv_html (P : CVProfile) : String :=
  strConcat (renderPieces P)

/-- The filename expression of src/main.py line 191:
`f"{profile.full_name.replace(' ', '')}_{profile.job_title_target.replace(' ', '')}_MakeMeHiredCV.pdf"`. -/
def cvFilename (full_name job_title_target : String) : String :=
  removeSpaces full_name ++ "_" ++ removeSpaces job_title_target ++ "_MakeMeHiredCV.pdf"

/-- The base64 alphabet, for the `base64.b64encode` call of src/main.py
line 189. -/
def base64Table : List Char :=
  "ABCDEFGHIJKLMNOPQRSTUVWXYZabcdefghijklmnopqrstuvwxyz0123456789+/".data

/-- The base64 digit for a 6-bit value. -/
def b64c (n : Nat) : Char :=
  base64Table.getD n '='

/-- Standard base64 of a byte list (each `Nat` is one byte), embedding
`base64.b64encode(...).decode("utf-8")` of src/main.py lines 188-189. -/
def base64Encode : List Nat → String
  | [] => ""
  | [a] => String.mk [b64c (a / 4), b64c (a % 4 * 16), '=', '=']
  | [a, b] => String.mk [b64c (a / 4), b64c (a % 4 * 16 + b / 16), b64c (b % 16 * 4), '=']
  | a :: b :: c :: rest =>
    String.mk [b64c (a / 4), b64c (a % 4 * 16 + b / 16), b64c (b % 16 * 4 + c / 64), b64c (c % 64)]
      ++ base64Encode rest

/-- The JSON object returned by `generate_cv` (src/main.py lines 193-198). -/
structure GenerateResponse where
  id : Option String
  filename : String
  html : String
  pdf_base64 : String
deriving DecidableEq

/-- Embeds the handler `generate_cv` (src/main.py lines 174-198) after request
validation.  The two external collaborators are explicit arguments: `conv` is
the `xhtml2pdf` converter (`html_to_pdf_bytes`, an opaque markup-to-bytes
capability per the spec), and `persistResult` is the outcome of the
`create_document("cvprofile", profile)` call — `Except.error` when that call
raises (datastore unavailable or write rejected), in which case the handler's
`except` clause sets `doc_id = None` and proceeds. -/
def generate_cv (conv : String → List Nat) (persistResult : Except String String)
    (profile : CVProfile) : GenerateResponse :=
  let doc_id : Option String :=
    match persistResult with
    | Except.ok i => some i
    | Except.error _ => none
  let html := render_cv_html profile
  let pdf_bytes := conv html
  let pdf_b64 := base64Encode pdf_bytes
  { id := doc_id,
    filename := cvFilename profile.full_name profile.job_title_target,
    html := html,
    pdf_base64 := pdf_b64 }

/-- Modelled from the spec: the submitted, not-yet-validated payload.  The
validation engine (pydantic/FastAPI request validation) is not part of src/;
src/schemas.py only declares field types, requiredness and defaults.  Each
field is `none` when absent from the submission.  For the fields whose pydantic
declaration is `Optional[...]` with a non-`None` default (`certifications`,
`projects`, `languages`, `interests`, `template`), the inner `Option`
distinguishes a submitted `null` from a submitted value. -/
structure RawProfile where
  full_name : Option String := none
  email : Option String := none
  phone : Option String := none
  linkedin : Option String := none
  summary : Option String := none
  job_title_target : Option String := none
  skills : Option (List String) := none
  experience : Option (List CVExperience) := none
  education : Option (List CVEducation) := none
  certifications : Option (Option (List String)) := none
  projects : Option (Option (List String)) := none
  languages : Option (Option (List String)) := none
  interests : Option (Option (List String)) := none
  template : Option (Option String) := none

/-- Splitting a character list at every occurrence of a separator (used only
by the spec-modelled email check below). -/
def splitChar (sep : Char) : List Char → List (List Char)
  | [] => [[]]
  | c :: rest =>
    if c = sep then [] :: splitChar sep rest
    else
      match splitChar sep rest with
      | [] => [[c]]
      | p :: pr => (c :: p) :: pr

/-- Modelled from the spec: "email must satisfy standard email-address syntax"
(src/schemas.py uses pydantic's `EmailStr`, whose checker is not in src/).
Simplified standard syntax: one `@` separating a non-empty local part from a
non-empty domain that contains a dot not at either end. -/
def isValidEmail (e : String) : Bool :=
  match splitChar '@' e.data with
  | [lp, dom] =>
    ¬ lp.isEmpty && ¬ dom.isEmpty && dom.contains '.' &&
      dom.head? ≠ some '.' && dom.getLast? ≠ some '.'
  | _ => false

/-- Modelled from the spec: the offending-field names of a submission, in
declaration order — each required field of src/schemas.py (`full_name`,
`email`, `phone`, `job_title_target`) that is missing, with `email` also
reported when present but malformed. -/
def requiredErrors (r : RawProfile) : List String :=
  (if r.full_name.isNone then ["full_name"] else []) ++
  (match r.email with
   | none => ["email"]
   | some e => if isValidEmail e then [] else ["email"]) ++
  (if r.phone.isNone then ["phone"] else []) ++
  (if r.job_title_target.isNone then ["job_title_target"] else [])

/-- Modelled from the spec: all-or-nothing validation — a complete `CVProfile`
(with the defaults declared in src/schemas.py filled in) or the list of every
offending field. -/
def validateProfile (r : RawProfile) : Except (List String) CVProfile :=
  if requiredErrors r = [] then
    Except.ok
      { full_name := r.full_name.getD "",
        email := r.email.getD "",
        phone := r.phone.getD "",
        linkedin := r.linkedin,
        summary := r.summary,
        job_title_target := r.job_title_target.getD "",
        skills := r.skills.getD [],
        experience := r.experience.getD [],
        education := r.education.getD [],
        certifications := r.certifications.getD (some []),
        projects := r.projects.getD (some []),
        languages := r.languages.getD (some []),
        interests := r.interests.getD (some []),
        template := r.template.getD (some "modern") }
  else Except.error (requiredErrors r)

/-- The full request path: validate, then (only on success) persist, render,
convert and package — on validation failure the error is returned and no
further work happens (src/main.py lines 174-198 together with the framework
contract of the spec, section 4.4 step 1). -/
def handleGenerate (conv : String → List Nat) (persistResult : Except String String)
    (r : RawProfile) : Except (List String) GenerateResponse :=
  match validateProfile r with
  | Except.error errs => Except.error errs
  | Except.ok p => Except.ok (generate_cv conv persistResult p)

/-- Written from the spec's words for claim C1 (spec section 4.2, skills):
empty or whitespace-only skill entries are dropped, the rest trimmed — to be
compared with `skills_to_keywords`, which only drops entries equal to `""`. -/
def skills_to_keywords_spec (skills : List String) : List String :=
  (skills.filter (fun s => pyStrip s ≠ "")).map pyStrip

/-- Written from the spec's words for claim C2 (spec section 4.4 step 4): the
full name and target job title, each with all whitespace characters stripped,
concatenated and followed by the fixed suffix — to be compared with
`cvFilename`, which removes only ASCII spaces and inserts `_` between the two
parts. -/
def cvFilename_spec (full_name job_title_target : String) : String :=
  String.mk (full_name.data.filter (fun c => ¬ isPySpace c)) ++
    String.mk (job_title_target.data.filter (fun c => ¬ isPySpace c)) ++
    "_MakeMeHiredCV.pdf"

/-- A string occurs inside another: `s = a ++ m ++ b` for some `a`, `b`. -/
def strInfix (m s : String) : Prop :=
  ∃ a b, s = a ++ (m ++ b)

/-- Each listed string occurs in the text, in the given order, in disjoint
places (each after the end of the previous one). -/
def containsInOrder : List String → String → Prop
  | [], _ => True
  | m :: ms, s => ∃ a b, s = a ++ (m ++ b) ∧ containsInOrder ms b

/-- A fixed sample profile used for concrete evaluations (the §8 scenario
profile of the spec, extended with the schema defaults). -/
def sampleProfile : CVProfile :=
  { full_name := "Jane Doe",
    email := "jane@example.com",
    phone := "555-1234",
    linkedin := none,
    summary := none,
    job_title_target := "Backend Engineer",
    skills := ["Go", " Rust ", ""],
    experience := [],
    education := [],
    certifications := some [],
    projects := some [],
    languages := some [],
    interests := some [],
    template := some "modern" }

/-- The heading marker a non-empty optional collection contributes to the
rendered document (claim C6): present exactly when the collection is a
non-empty list. -/
def optMarker (title : String) (c : Option (List String)) : List String :=
  match c with
  | some (_ :: _) => ["<h2>" ++ title ++ "</h2>"]
  | _ => []

/-- The markers of claim C6, in the order the spec fixes: header content
(name, target job title, phone, email), the four mandatory section headings,
then the heading of each optional section that is non-empty. -/
def c6Markers (P : CVProfile) : List String :=
  [P.full_name, P.job_title_target, P.phone, P.email,
   "<h2>Professional Summary</h2>", "<h2>Core Skills</h2>",
   "<h2>Professional Experience</h2>", "<h2>Education</h2>"]
  ++ optMarker "Certifications" P.certifications
  ++ optMarker "Projects / Achievements" P.projects
  ++ optMarker "Languages" P.languages
  ++ optMarker "Interests" P.interests

/-- The pieces of the template with the four optional sections omitted
entirely (used by claim C5): what `render_cv_html` assembles when every
optional collection is empty or absent. -/
def renderPiecesMandatory (P : CVProfile) : List String :=
  [tplHead,
   P.full_name,
   " — ",
   P.job_title_target,
   tplStyle,
   P.full_name,
   tplContact,
   P.phone,
   " • ",
   P.email,
   linkedinHtml P.linkedin,
   tplAfterContact,
   "<h2>Professional Summary</h2>",
   "\n    <p>",
   summaryHtml P,
   tplAfterSummary,
   "<h2>Core Skills</h2>",
   "\n    <div>",
   skillsHtml P.skills,
   tplAfterSkills,
   "<h2>Professional Experience</h2>",
   "\n    ",
   expHtml P.experience,
   tplAfterExp,
   "<h2>Education</h2>",
   "\n    ",
   eduHtml P.education,
   tplAfterEdu,
   "\n  ",
   "\n  ",
   "\n  ",
   tplFooter]

/-! Helper lemmas about string concatenation, occurrence and the section
building blocks.  These are shared infrastructure for the claim theorems. -/

theorem strConcat_cons (s : String) (l : List String) :
    strConcat (s :: l) = s ++ strConcat l := rfl

theorem strInfix_extendLeft {m t : String} (s : String) (h : strInfix m t) :
    strInfix m (s ++ t) := by
  obtain ⟨a, b, rfl⟩ := h
  exact ⟨s ++ a, b, by rw [String.append_assoc]⟩

theorem strInfix_extendRight {m s : String} (t : String) (h : strInfix m s) :
    strInfix m (s ++ t) := by
  obtain ⟨a, b, rfl⟩ := h
  exact ⟨a, b ++ t, by simp [String.append_assoc]⟩

theorem strInfix_head (s t : String) : strInfix s (s ++ t) :=
  ⟨"", t, rfl⟩

theorem strInfix_of_mem {s : String} {l : List String} (h : s ∈ l) :
    strInfix s (strConcat l) := by
  induction l with
  | nil => cases h
  | cons a l ih =>
    rcases List.mem_cons.mp h with rfl | h2
    · exact strInfix_head s (strConcat l)
    · exact strInfix_extendLeft a (ih h2)

theorem strInfix_trans {m k s : String} (h1 : strInfix m k) (h2 : strInfix k s) :
    strInfix m s := by
  obtain ⟨a, b, rfl⟩ := h1
  obtain ⟨c, d, rfl⟩ := h2
  exact ⟨c ++ a, b ++ d, by simp [String.append_assoc]⟩

theorem cio_nil (s : String) : containsInOrder [] s := trivial

theorem cio_extendLeft {ms : List String} {t : String} (s : String)
    (h : containsInOrder ms t) : containsInOrder ms (s ++ t) := by
  cases ms with
  | nil => trivial
  | cons m ms =>
    obtain ⟨a, b, hab, rest⟩ := h
    exact ⟨s ++ a, b, by rw [hab, String.append_assoc], rest⟩

theorem cio_matchPiece {ms : List String} {l : List String} (s : String)
    (h : containsInOrder ms (strConcat l)) :
    containsInOrder (s :: ms) (strConcat (s :: l)) :=
  ⟨"", strConcat l, rfl, h⟩

theorem cio_skipPiece {ms : List String} {l : List String} (s : String)
    (h : containsInOrder ms (strConcat l)) :
    containsInOrder ms (strConcat (s :: l)) :=
  cio_extendLeft s h

theorem cio_withinPiece {ms : List String} {l : List String} {s a m b : String}
    (hs : s = a ++ (m ++ b)) (h : containsInOrder ms (strConcat l)) :
    containsInOrder (m :: ms) (strConcat (s :: l)) := by
  refine ⟨a, b ++ strConcat l, ?_, cio_extendLeft b h⟩
  show s ++ strConcat l = a ++ (m ++ (b ++ strConcat l))
  rw [hs]
  simp [String.append_assoc]

theorem bullet_list_none : bullet_list none = "" := rfl

theorem bullet_list_some_nil : bullet_list (some []) = "" := by
  simp [bullet_list]

theorem bullet_list_cons_ne (x : String) (xs : List String) :
    bullet_list (some (x :: xs)) ≠ "" := by
  simp only [bullet_list, if_neg (List.cons_ne_nil x xs)]
  intro h
  have hd : (("<ul>" ++ strConcat ((x :: xs).filter (fun p => p ≠ "") |>.map
      (fun p => "<li>" ++ p ++ "</li>")) ++ "</ul>")).data = ("" : String).data :=
    congrArg String.data h
  simp [String.data_append] at hd

theorem optionalSection_empty (t : String) {c : Option (List String)}
    (h : c = none ∨ c = some []) : optionalSection t c = "" := by
  rcases h with rfl | rfl
  · rfl
  · simp [optionalSection, bullet_list_some_nil]

theorem optionalSection_cons (t x : String) (xs : List String) :
    optionalSection t (some (x :: xs)) =
      "<div class='section'><h2>" ++ t ++ "</h2>" ++ bullet_list (some (x :: xs)) ++ "</div>" := by
  rw [optionalSection, if_neg (bullet_list_cons_ne x xs)]

theorem optionalSection_decomp (t x : String) (xs : List String) :
    optionalSection t (some (x :: xs)) =
      "<div class='section'>" ++ (("<h2>" ++ t ++ "</h2>") ++
        (bullet_list (some (x :: xs)) ++ "</div>")) := by
  rw [optionalSection_cons]
  have hsplit : ("<div class='section'><h2>" : String) = "<div class='section'>" ++ "<h2>" := rfl
  rw [hsplit]
  simp only [String.append_assoc]

theorem cio_optSection (t : String) (c : Option (List String)) {ms : List String}
    {l : List String} (h : containsInOrder ms (strConcat l)) :
    containsInOrder (optMarker t c ++ ms) (strConcat (optionalSection t c :: l)) := by
  match c with
  | none => exact h
  | some [] =>
    show containsInOrder ms (strConcat (optionalSection t (some []) :: l))
    rw [optionalSection_empty t (Or.inr rfl)]
    exact h
  | some (x :: xs) =>
    show containsInOrder (("<h2>" ++ t ++ "</h2>") :: ms)
      (strConcat (optionalSection t (some (x :: xs)) :: l))
    exact cio_withinPiece (by rw [optionalSection_decomp, String.append_assoc]) h

theorem strInfix_renderPiece {P : CVProfile} {s : String}
    (h : s ∈ renderPieces P) : strInfix s (render_cv_html P) :=
  strInfix_of_mem h

theorem cio_optSectionLast (t : String) (c : Option (List String)) (l : List String) :
    containsInOrder (optMarker t c) (strConcat (optionalSection t c :: l)) := by
  have h := @cio_optSection t c [] l (cio_nil _)
  simpa using h

/-- C8: `render_cv_html` is deterministic — two equal validated profiles
produce byte-identical markup.  The embedded renderer is a pure function of
the profile alone (it reads no clock and no randomness source, matching
src/main.py lines 73-161, which use only `data` and string literals). -/
theorem render_cv_html_deterministic (P1 P2 : CVProfile) (h : P1 = P2) :
    render_cv_html P1 = render_cv_html P2 := by
  rw [h]

theorem render_cv_html_deterministic_witness :
    render_cv_html sampleProfile = render_cv_html sampleProfile :=
  render_cv_html_deterministic sampleProfile sampleProfile rfl

/-- C9: the `template` field has no effect on rendering — two profiles that
agree on every field except `template` render identically (src/main.py lines
73-161 never read `data.template`). -/
theorem template_field_no_effect (P : CVProfile) (t1 t2 : Option String) :
    render_cv_html { P with template := t1 } = render_cv_html { P with template := t2 } :=
  rfl

/-- C3: persistence failure is non-fatal — when the `create_document` call
raises (`Except.error`), `generate_cv` still returns a response with the same
filename, markup and encoded document bytes as on persistence success, the
only difference being a `none` identifier; no persistence error reaches the
caller (src/main.py lines 177-198). -/
theorem persistence_failure_nonfatal (conv : String → List Nat) (P : CVProfile)
    (err ident : String) :
    (generate_cv conv (Except.error err) P).filename
        = (generate_cv conv (Except.ok ident) P).filename ∧
    (generate_cv conv (Except.error err) P).html
        = (generate_cv conv (Except.ok ident) P).html ∧
    (generate_cv conv (Except.error err) P).pdf_base64
        = (generate_cv conv (Except.ok ident) P).pdf_base64 ∧
    (generate_cv conv (Except.error err) P).id = none ∧
    (generate_cv conv (Except.ok ident) P).id = some ident :=
  ⟨rfl, rfl, rfl, rfl, rfl⟩

/-- C6: the sections of the rendered document appear in the fixed order —
header content (name, target job title, phone, email), then the Professional
Summary, Core Skills, Professional Experience and Education headings (always
present), then the heading of each non-empty optional collection, in the order
certifications, projects, languages, interests (src/main.py lines 104-160). -/
theorem render_sections_in_order (P : CVProfile) :
    containsInOrder (c6Markers P) (render_cv_html P) := by
  show containsInOrder (c6Markers P) (strConcat (renderPieces P))
  simp only [c6Markers, renderPieces, List.cons_append, List.nil_append, List.append_assoc]
  apply cio_skipPiece
  apply cio_matchPiece
  apply cio_skipPiece
  apply cio_matchPiece
  apply cio_skipPiece
  apply cio_skipPiece
  apply cio_skipPiece
  apply cio_matchPiece
  apply cio_skipPiece
  apply cio_matchPiece
  apply cio_skipPiece
  apply cio_skipPiece
  apply cio_matchPiece
  apply cio_skipPiece
  apply cio_skipPiece
  apply cio_skipPiece
  apply cio_matchPiece
  apply cio_skipPiece
  apply cio_skipPiece
  apply cio_skipPiece
  apply cio_matchPiece
  apply cio_skipPiece
  apply cio_skipPiece
  apply cio_skipPiece
  apply cio_matchPiece
  apply cio_skipPiece
  apply cio_skipPiece
  apply cio_skipPiece
  apply cio_optSection
  apply cio_skipPiece
  apply cio_optSection
  apply cio_skipPiece
  apply cio_optSection
  apply cio_skipPiece
  apply cio_optSectionLast

/-- C4: when `summary` is absent (`None`) or the empty string, the rendered
markup carries the exact synthesized fallback sentence
"Results-driven {job_title_target} with experience across key areas and
strong focus on measurable impact." in the summary paragraph; when `summary`
is a non-empty string, the paragraph carries `P.summary` instead
(src/main.py line 135). -/
theorem summary_fallback_behavior (P : CVProfile) :
    ((P.summary = none ∨ P.summary = some "") →
      summaryHtml P = fallbackSummary P.job_title_target ∧
      strInfix (fallbackSummary P.job_title_target) (render_cv_html P)) ∧
    (∀ s, P.summary = some s → s ≠ "" →
      summaryHtml P = s ∧ strInfix s (render_cv_html P)) := by
  have hinf : strInfix (summaryHtml P) (render_cv_html P) :=
    strInfix_renderPiece (by simp [renderPieces])
  constructor
  · intro h
    have he : summaryHtml P = fallbackSummary P.job_title_target := by
      rcases h with h | h <;> simp [summaryHtml, h]
    exact ⟨he, he ▸ hinf⟩
  · intro s hs hne
    have he : summaryHtml P = s := by simp [summaryHtml, hs, hne]
    exact ⟨he, he ▸ hinf⟩

/-- C5: an optional collection (certifications, projects, languages,
interests) that is absent or the empty sequence contributes no markup at all —
its section (heading plus list) is the empty string, and when all four are
empty or absent the whole document equals the template with the four optional
section slots empty (src/main.py lines 75-79 and 153-156). -/
theorem optional_sections_omitted (P : CVProfile) :
    ((P.certifications = none ∨ P.certifications = some []) →
      optionalSection "Certifications" P.certifications = "") ∧
    ((P.projects = none ∨ P.projects = some []) →
      optionalSection "Projects / Achievements" P.projects = "") ∧
    ((P.languages = none ∨ P.languages = some []) →
      optionalSection "Languages" P.languages = "") ∧
    ((P.interests = none ∨ P.interests = some []) →
      optionalSection "Interests" P.interests = "") ∧
    ((P.certifications = none ∨ P.certifications = some []) →
      (P.projects = none ∨ P.projects = some []) →
      (P.languages = none ∨ P.languages = some []) →
      (P.interests = none ∨ P.interests = some []) →
      render_cv_html P = strConcat (renderPiecesMandatory P)) := by
  refine ⟨fun h => optionalSection_empty _ h, fun h => optionalSection_empty _ h,
    fun h => optionalSection_empty _ h, fun h => optionalSection_empty _ h, ?_⟩
  intro h1 h2 h3 h4
  show strConcat (renderPieces P) = strConcat (renderPiecesMandatory P)
  rw [renderPieces, renderPiecesMandatory, optionalSection_empty _ h1,
    optionalSection_empty _ h2, optionalSection_empty _ h3, optionalSection_empty _ h4]
  rfl

theorem bullet_list_all_empty {items : List String} (hne : items ≠ [])
    (hall : ∀ s ∈ items, s = "") : bullet_list (some items) = "<ul></ul>" := by
  have hf : items.filter (fun p => p ≠ "") = [] := by
    rw [List.filter_eq_nil_iff]
    intro a ha
    simp [hall a ha]
  simp only [bullet_list, if_neg hne, hf]
  rfl

theorem optionalSection_all_empty_items (t : String) {items : List String}
    (hne : items ≠ []) (hall : ∀ s ∈ items, s = "") :
    optionalSection t (some items) =
      "<div class='section'><h2>" ++ t ++ "</h2>" ++ "<ul></ul>" ++ "</div>" := by
  have hb := bullet_list_all_empty hne hall
  rw [optionalSection, hb, if_neg (by decide : ¬("<ul></ul>" : String) = "")]

/-- C10: a bullet-list collection that is a non-empty sequence of empty
strings is treated as present — the emptiness test of `bullet_list` looks at
the raw sequence before empty items are filtered out of the list items, so the
section is emitted with its heading and an empty `<ul></ul>` (src/main.py
lines 75-79, 83-90 and 153-156). -/
theorem all_empty_items_still_render (P : CVProfile) (items : List String)
    (hne : items ≠ []) (hall : ∀ s ∈ items, s = "") :
    (P.certifications = some items →
      strInfix "<div class='section'><h2>Certifications</h2><ul></ul></div>" (render_cv_html P)) ∧
    (P.projects = some items →
      strInfix "<div class='section'><h2>Projects / Achievements</h2><ul></ul></div>" (render_cv_html P)) ∧
    (P.languages = some items →
      strInfix "<div class='section'><h2>Languages</h2><ul></ul></div>" (render_cv_html P)) ∧
    (P.interests = some items →
      strInfix "<div class='section'><h2>Interests</h2><ul></ul></div>" (render_cv_html P)) ∧
    (∀ e, e ∈ P.experience → e.achievements = items →
      strInfix "<ul></ul>" (render_cv_html P)) := by
  have hb : bullet_list (some items) = "<ul></ul>" := bullet_list_all_empty hne hall
  refine ⟨?_, ?_, ?_, ?_, ?_⟩
  · intro hc
    have hs : optionalSection "Certifications" P.certifications =
        "<div class='section'><h2>Certifications</h2><ul></ul></div>" := by
      rw [hc, optionalSection_all_empty_items _ hne hall]
      decide
    exact hs ▸ strInfix_renderPiece (by simp [renderPieces])
  · intro hc
    have hs : optionalSection "Projects / Achievements" P.projects =
        "<div class='section'><h2>Projects / Achievements</h2><ul></ul></div>" := by
      rw [hc, optionalSection_all_empty_items _ hne hall]
      decide
    exact hs ▸ strInfix_renderPiece (by simp [renderPieces])
  · intro hc
    have hs : optionalSection "Languages" P.languages =
        "<div class='section'><h2>Languages</h2><ul></ul></div>" := by
      rw [hc, optionalSection_all_empty_items _ hne hall]
      decide
    exact hs ▸ strInfix_renderPiece (by simp [renderPieces])
  · intro hc
    have hs : optionalSection "Interests" P.interests =
        "<div class='section'><h2>Interests</h2><ul></ul></div>" := by
      rw [hc, optionalSection_all_empty_items _ hne hall]
      decide
    exact hs ▸ strInfix_renderPiece (by simp [renderPieces])
  · intro e he hea
    have h1 : strInfix (bullet_list (some e.achievements)) (expItem e) :=
      strInfix_of_mem (by simp [expItem])
    have h2 : strInfix "<ul></ul>" (expItem e) := by
      rw [hea, hb] at h1
      exact h1
    have h3 : strInfix (expItem e) (expHtml P.experience) :=
      strInfix_of_mem (List.mem_map_of_mem expItem he)
    have h4 : strInfix (expHtml P.experience) (render_cv_html P) :=
      strInfix_renderPiece (by simp [renderPieces])
    exact strInfix_trans (strInfix_trans h2 h3) h4

theorem all_empty_items_still_render_witness :
    strInfix "<div class='section'><h2>Languages</h2><ul></ul></div>"
      (render_cv_html { sampleProfile with languages := some ["", ""] }) :=
  (all_empty_items_still_render { sampleProfile with languages := some ["", ""] }
    ["", ""] (by decide) (by decide)).2.2.1 rfl

/-- C1 counterexample: a whitespace-only skill entry is NOT dropped by
`skills_to_keywords` — Python's truthiness test `if s` only drops `""`, so
`"   "` survives, is stripped to `""`, and the skills section renders an empty
tag `<span class='tag'></span>` for it; under the spec's reading
(`skills_to_keywords_spec`) the entry would vanish and the section would be
empty. -/
theorem whitespace_skill_not_dropped :
    skills_to_keywords ["   "] = [""] ∧
    skillsHtml ["   "] = "<span class='tag'></span>" ∧
    skills_to_keywords_spec ["   "] = [] ∧
    strConcat ((skills_to_keywords_spec ["   "]).map
      (fun s => "<span class='tag'>" ++ s ++ "</span>")) = "" := by
  refine ⟨by decide, by decide, by decide, by decide⟩

/-- C1 (amended): entries equal to the empty string are dropped from the
rendered skills section (the tag count equals the count of non-empty entries);
every skill whose trim is non-empty appears trimmed of surrounding whitespace
as a tag; a whitespace-only (but non-empty) entry is kept and contributes an
empty keyword, i.e. an empty tag. -/
theorem skills_rendering_amended (skills : List String) :
    (skills_to_keywords skills).length = (skills.filter (fun s => s ≠ "")).length ∧
    (∀ s, s ∈ skills → pyStrip s ≠ "" →
      pyStrip s ∈ skills_to_keywords skills ∧
      strInfix ("<span class='tag'>" ++ pyStrip s ++ "</span>") (skillsHtml skills)) ∧
    (∀ s, s ∈ skills → s ≠ "" → pyStrip s = "" →
      "" ∈ skills_to_keywords skills) := by
  refine ⟨by simp [skills_to_keywords], ?_, ?_⟩
  · intro s hs hns
    have hne : s ≠ "" := by
      intro h
      apply hns
      rw [h]
      rfl
    have hf : s ∈ skills.filter (fun t => t ≠ "") :=
      List.mem_filter.mpr ⟨hs, by simpa using hne⟩
    have hmem : pyStrip s ∈ skills_to_keywords skills :=
      List.mem_map_of_mem pyStrip hf
    exact ⟨hmem, strInfix_of_mem (List.mem_map_of_mem _ hmem)⟩
  · intro s hs hne hstrip
    have hf : s ∈ skills.filter (fun t => t ≠ "") :=
      List.mem_filter.mpr ⟨hs, by simpa using hne⟩
    have hmem : pyStrip s ∈ skills_to_keywords skills :=
      List.mem_map_of_mem pyStrip hf
    rwa [hstrip] at hmem

/-- C2 counterexample: the generated filename is NOT the whitespace-stripped
concatenation `{Name}{JobTitle}_MakeMeHiredCV.pdf` — the code inserts an
underscore between the two parts and removes only ASCII spaces, so a tab in
the name survives into the filename. -/
theorem filename_counterexample :
    cvFilename "Jane\tDoe" "Dev" = "Jane\tDoe_Dev_MakeMeHiredCV.pdf" ∧
    cvFilename_spec "Jane\tDoe" "Dev" = "JaneDoeDev_MakeMeHiredCV.pdf" ∧
    '\t' ∈ (cvFilename "Jane\tDoe" "Dev").data ∧
    (cvFilename "Jane\tDoe" "Dev" = cvFilename_spec "Jane\tDoe" "Dev" → False) := by
  refine ⟨by decide, by decide, by decide, by decide⟩

/-- C2 (amended): the filename is the full name with ASCII spaces removed, an
underscore, the target job title with ASCII spaces removed, then the fixed
suffix `_MakeMeHiredCV.pdf`; no ASCII space survives anywhere in it, but other
whitespace characters (tab, newline) are preserved (src/main.py line 191 uses
`.replace(' ', '')`). -/
theorem filename_amended (full_name job_title_target : String) :
    cvFilename full_name job_title_target =
      removeSpaces full_name ++ "_" ++ removeSpaces job_title_target ++ "_MakeMeHiredCV.pdf" ∧
    (∀ c, c ∈ (cvFilename full_name job_title_target).data → c ≠ ' ') ∧
    "_MakeMeHiredCV.pdf".data.IsSuffix (cvFilename full_name job_title_target).data := by
  refine ⟨rfl, ?_, ?_⟩
  · intro c hc
    simp only [cvFilename, String.data_append, removeSpaces, List.mem_append] at hc
    rcases hc with ((hc | hc) | hc) | hc
    · exact of_decide_eq_true (List.mem_filter.mp hc).2
    · have hall : ∀ a ∈ ("_" : String).data, a ≠ ' ' := by decide
      exact hall c hc
    · exact of_decide_eq_true (List.mem_filter.mp hc).2
    · have hall : ∀ a ∈ "_MakeMeHiredCV.pdf".data, a ≠ ' ' := by decide
      exact hall c hc
  · exact ⟨(removeSpaces full_name ++ "_" ++ removeSpaces job_title_target).data,
      by simp [cvFilename, String.data_append]⟩

/-- C7: validation is all-or-nothing — every submission either yields a
complete `CVProfile` or fails with a non-empty list naming every offending
field; a submission missing `email` fails with an error naming `email`, a
present but malformed email is also named, and on any validation failure the
request handler returns the error unchanged, performing no rendering and no
persistence (the response does not depend on the converter or on the
persistence outcome). -/
theorem validation_all_or_nothing (r : RawProfile) (conv : String → List Nat)
    (pr : Except String String) :
    ((∃ p, validateProfile r = Except.ok p) ∨
      (∃ errs, validateProfile r = Except.error errs ∧ errs ≠ [])) ∧
    (r.full_name = none → "full_name" ∈ requiredErrors r) ∧
    (r.email = none → "email" ∈ requiredErrors r) ∧
    (∀ e, r.email = some e → isValidEmail e = false → "email" ∈ requiredErrors r) ∧
    (r.phone = none → "phone" ∈ requiredErrors r) ∧
    (r.job_title_target = none → "job_title_target" ∈ requiredErrors r) ∧
    (∀ errs, validateProfile r = Except.error errs →
      errs = requiredErrors r ∧ handleGenerate conv pr r = Except.error errs) := by
  refine ⟨?_, ?_, ?_, ?_, ?_, ?_, ?_⟩
  · by_cases h : requiredErrors r = []
    · exact Or.inl ⟨_, by rw [validateProfile, if_pos h]⟩
    · exact Or.inr ⟨requiredErrors r, by rw [validateProfile, if_neg h], h⟩
  · intro h
    simp [requiredErrors, h]
  · intro h
    simp [requiredErrors, h]
  · intro e he hv
    simp [requiredErrors, he, hv]
  · intro h
    simp [requiredErrors, h]
  · intro h
    simp [requiredErrors, h]
  · intro errs heq
    by_cases h : requiredErrors r = []
    · rw [validateProfile, if_pos h] at heq
      cases heq
    · rw [validateProfile, if_neg h] at heq
      injection heq with h2
      subst h2
      refine ⟨rfl, ?_⟩
      unfold handleGenerate
      rw [validateProfile, if_neg h]

theorem summary_fallback_behavior_witness :
    summaryHtml sampleProfile = fallbackSummary sampleProfile.job_title_target ∧
    strInfix (fallbackSummary sampleProfile.job_title_target) (render_cv_html sampleProfile) ∧
    summaryHtml { sampleProfile with summary := some "Seasoned engineer." } = "Seasoned engineer." := by
  have h1 := (summary_fallback_behavior sampleProfile).1 (Or.inl rfl)
  have h2 := (summary_fallback_behavior { sampleProfile with summary := some "Seasoned engineer." }).2
    "Seasoned engineer." rfl (by decide)
  exact ⟨h1.1, h1.2, h2.1⟩

theorem optional_sections_omitted_witness :
    optionalSection "Certifications" sampleProfile.certifications = "" ∧
    render_cv_html sampleProfile = strConcat (renderPiecesMandatory sampleProfile) :=
  ⟨(optional_sections_omitted sampleProfile).1 (Or.inr rfl),
   (optional_sections_omitted sampleProfile).2.2.2.2
     (Or.inr rfl) (Or.inr rfl) (Or.inr rfl) (Or.inr rfl)⟩

theorem skills_rendering_amended_witness :
    pyStrip " Rust " ∈ skills_to_keywords ["Go", " Rust ", ""] ∧
    "" ∈ skills_to_keywords ["Go", " Rust ", "   "] :=
  ⟨((skills_rendering_amended ["Go", " Rust ", ""]).2.1 " Rust " (by decide) (by decide)).1,
   (skills_rendering_amended ["Go", " Rust ", "   "]).2.2 "   " (by decide) (by decide) (by decide)⟩

theorem filename_amended_witness :
    cvFilename "Jane Doe" "Backend Engineer" =
      removeSpaces "Jane Doe" ++ "_" ++ removeSpaces "Backend Engineer" ++ "_MakeMeHiredCV.pdf" ∧
    "_MakeMeHiredCV.pdf".data.IsSuffix (cvFilename "Jane Doe" "Backend Engineer").data :=
  ⟨(filename_amended "Jane Doe" "Backend Engineer").1,
   (filename_amended "Jane Doe" "Backend Engineer").2.2⟩

theorem validation_all_or_nothing_witness :
    "email" ∈ requiredErrors
      { full_name := some "Jane Doe", phone := some "555-1234",
        job_title_target := some "Backend Engineer" } ∧
    handleGenerate (fun _ => []) (Except.error "db down")
      { full_name := some "Jane Doe", phone := some "555-1234",
        job_title_target := some "Backend Engineer" } = Except.error ["email"] := by
  have h := validation_all_or_nothing
    { full_name := some "Jane Doe", phone := some "555-1234",
      job_title_target := some "Backend Engineer" } (fun _ => []) (Except.error "db down")
  refine ⟨h.2.2.1 rfl, ?_⟩
  have h2 := h.2.2.2.2.2.2 ["email"] rfl
  exact h2.2
